import Mathlib

/-! DiaPredictor: the assessment form controller

A shallow embedding of the React component `App` of the repository
(`src/App.jsx`, the controller that is built and served, and `App.jsx` at the
repository root, an earlier revision of the same component).

The component keeps seven `useState` cells.  Every handler is a straight-line
sequence of setter calls, at most one `fetch`, and logging.  A handler is embedded
as the list of effects it performs, in program order; the state after the handler
is obtained by applying those effects to the state before it.  An `await` splits a
handler into the part that runs before the request is issued and the part that runs
once the request has settled.

What the browser supplies is taken as an input of the handlers:
* `parseFloat`, the ECMAScript built-in, is a parameter `String → JSNumber`;
* `navigator.onLine` is a parameter `online : Bool`, read in the `catch` block;
* the way the `fetch` settles is a `FetchOutcome`.

The wrapper `services/api.js` is embedded with the transport of axios as a parameter.
-/

namespace DiaPredictor

/-! ## Values -/

/-- Numbers that `JSON.parse` can produce: a finite double, given by the rational it
denotes, or an infinity (a literal that overflows, such as `1e999`).  JSON text has
no literal for NaN, so a parsed response body never contains NaN. -/
inductive JsonNumber where
  | negInf
  | fin (q : ℚ)
  | posInf
  deriving DecidableEq

/-- ECMAScript Number values: NaN, or a number with a place in the numeric order. -/
inductive JSNumber where
  | nan
  | ofJson (x : JsonNumber)
  deriving DecidableEq

/-- Values held by the component: the values returned by `response.json()`, and
`undefined`, the value of a property that the parsed data does not have. -/
inductive JSValue where
  | undefined
  | null
  | bool (b : Bool)
  | number (n : JsonNumber)
  | string (s : String)
  | array (items : List JSValue)
  | object (members : List (String × JSValue))

instance : OfNat JsonNumber n := ⟨JsonNumber.fin n⟩

/-- The relational operator `a < b` of ECMAScript on two numbers, neither NaN. -/
def JsonNumber.lt : JsonNumber → JsonNumber → Bool
  | .negInf, .negInf => false
  | .negInf, _ => true
  | .fin _, .negInf => false
  | .fin a, .fin b => decide (a < b)
  | .fin _, .posInf => true
  | .posInf, _ => false

/-- The relational operator `a >= b` of ECMAScript: `a < b` is evaluated and, the
operands not being NaN, its result is negated. -/
def JsonNumber.ge (a b : JsonNumber) : Bool := !(a.lt b)

instance : LT JsonNumber := ⟨fun a b => a.lt b = true⟩
instance : LE JsonNumber := ⟨fun a b => b.ge a = true⟩

instance (a b : JsonNumber) : Decidable (a < b) := inferInstanceAs (Decidable (a.lt b = true))
instance (a b : JsonNumber) : Decidable (a ≤ b) := inferInstanceAs (Decidable (b.ge a = true))

/-- The conversion `ToBoolean` of ECMAScript, applied by `if (...)`, `&&` and `? :`. -/
def JSValue.toBoolean : JSValue → Bool
  | .undefined => false
  | .null => false
  | .bool b => b
  | .number (.fin q) => decide (q ≠ 0)
  | .number _ => true
  | .string s => decide (s ≠ "")
  | .array _ => true
  | .object _ => true

/-- The property read `data[key]`, for a key that no prototype defines, such as
`accuracy`: `none` when the read throws a `TypeError` (`data` is `undefined` or
`null`), otherwise the own property of an object, or `undefined`.  The members of an
object are its own properties; their keys are distinct. -/
def JSValue.getProperty (data : JSValue) (key : String) : Option JSValue :=
  match data with
  | .undefined => none
  | .null => none
  | .object members =>
    match members.lookup key with
    | some value => some value
    | none => some .undefined
  | _ => some .undefined

/-! ## Form data and component state -/

/-- The `name` attributes of the eight inputs bound to `handleInputChange`. -/
inductive FieldName where
  | pregnancies
  | glucose
  | bloodPressure
  | skinThickness
  | insulin
  | bmi
  | diabetesPedigreeFunction
  | age
  deriving DecidableEq

/-- The eight field names, in the order of the keys of `formData`. -/
def FieldName.all : List FieldName :=
  [.pregnancies, .glucose, .bloodPressure, .skinThickness, .insulin, .bmi,
   .diabetesPedigreeFunction, .age]

/-- The property name of `formData` a field is stored under. -/
def FieldName.key : FieldName → String
  | .pregnancies => "pregnancies"
  | .glucose => "glucose"
  | .bloodPressure => "bloodPressure"
  | .skinThickness => "skinThickness"
  | .insulin => "insulin"
  | .bmi => "bmi"
  | .diabetesPedigreeFunction => "diabetesPedigreeFunction"
  | .age => "age"

/-- The object held by the `formData` state cell: eight string-valued properties. -/
structure FormData where
  pregnancies : String
  glucose : String
  bloodPressure : String
  skinThickness : String
  insulin : String
  bmi : String
  diabetesPedigreeFunction : String
  age : String
  deriving DecidableEq

/-- The object literal passed to `useState` for `formData`, and to `setFormData` by
`resetForm`. -/
def FormData.empty : FormData :=
  { pregnancies := "", glucose := "", bloodPressure := "", skinThickness := "",
    insulin := "", bmi := "", diabetesPedigreeFunction := "", age := "" }

/-- Property read `formData[name]`. -/
def FormData.get (f : FormData) : FieldName → String
  | .pregnancies => f.pregnancies
  | .glucose => f.glucose
  | .bloodPressure => f.bloodPressure
  | .skinThickness => f.skinThickness
  | .insulin => f.insulin
  | .bmi => f.bmi
  | .diabetesPedigreeFunction => f.diabetesPedigreeFunction
  | .age => f.age

/-- The object `{ ...prev, [name]: value }`. -/
def FormData.set (prev : FormData) (name : FieldName) (value : String) : FormData :=
  match name with
  | .pregnancies => { prev with pregnancies := value }
  | .glucose => { prev with glucose := value }
  | .bloodPressure => { prev with bloodPressure := value }
  | .skinThickness => { prev with skinThickness := value }
  | .insulin => { prev with insulin := value }
  | .bmi => { prev with bmi := value }
  | .diabetesPedigreeFunction => { prev with diabetesPedigreeFunction := value }
  | .age => { prev with age := value }

/-- The list `Object.entries(formData)`, in property order. -/
def FormData.entries (f : FormData) : List (String × String) :=
  FieldName.all.map fun name => (name.key, f.get name)

/-- The seven `useState` cells of `App`.  `result` and `modelAccuracy` hold parsed
response data, or `null`; `error` holds a message, or `null` (here `none`).  The root
revision has no `training` cell; there it is never read or written. -/
structure State where
  showAssessment : Bool
  loading : Bool
  result : JSValue
  error : Option String
  modelAccuracy : JSValue
  training : Bool
  formData : FormData

/-- The state built from the arguments of the `useState` calls. -/
def State.initial : State :=
  { showAssessment := false, loading := false, result := .null, error := none,
    modelAccuracy := .null, training := false, formData := FormData.empty }

/-! ## Requests and effects -/

/-- The arguments of a `fetch` call.  `body` is the object handed to
`JSON.stringify`, as a list of its properties in order. -/
structure Request where
  url : String
  method : String
  headers : List (String × String)
  body : Option (List (String × JSNumber))

/-- How a `fetch` call settles, as far as the handlers observe it: the promise
rejects, or it resolves with a response whose `ok` flag and whose `json()` result
(`none` when that promise rejects) are given. -/
inductive FetchOutcome where
  | rejected
  | resolved (ok : Bool) (json : Option JSValue)

/-- The argument of an `alert` call: the template
`Training completed. Model Accuracy: ${data.accuracy}%`, or a fixed text. -/
inductive Alert where
  | trainingCompleted (accuracy : JSValue)
  | text (message : String)

/-- The observable steps of a handler. -/
inductive Effect where
  | preventDefault
  | setShowAssessment (b : Bool)
  | setLoading (b : Bool)
  | setResult (r : JSValue)
  | setError (e : Option String)
  | setModelAccuracy (a : JSValue)
  | setTraining (b : Bool)
  | setFormData (f : FormData)
  | updateFormData (name : FieldName) (value : String)
  | fetch (req : Request)
  | consoleError
  | alert (a : Alert)

/-- The state after one effect.  `updateFormData` is the updater form
`setFormData(prev => ({ ...prev, [name]: value }))`. -/
def Effect.apply (s : State) : Effect → State
  | .preventDefault => s
  | .setShowAssessment b => { s with showAssessment := b }
  | .setLoading b => { s with loading := b }
  | .setResult r => { s with result := r }
  | .setError e => { s with error := e }
  | .setModelAccuracy a => { s with modelAccuracy := a }
  | .setTraining b => { s with training := b }
  | .setFormData f => { s with formData := f }
  | .updateFormData name value => { s with formData := s.formData.set name value }
  | .fetch _ => s
  | .consoleError => s
  | .alert _ => s

/-- The state after a sequence of effects. -/
def run (s : State) (effects : List Effect) : State :=
  effects.foldl Effect.apply s

/-- The requests issued by a sequence of effects. -/
def requests (effects : List Effect) : List Request :=
  effects.filterMap fun
    | .fetch req => some req
    | _ => none

/-- The values written to `loading` by a sequence of effects, in order. -/
def loadingWrites (effects : List Effect) : List Bool :=
  effects.filterMap fun
    | .setLoading b => some b
    | _ => none

/-- The values written to `result` by a sequence of effects, in order. -/
def resultWrites (effects : List Effect) : List JSValue :=
  effects.filterMap fun
    | .setResult r => some r
    | _ => none

/-- Whether an effect is a call of a state setter. -/
def Effect.isStateWrite : Effect → Bool
  | .preventDefault => false
  | .fetch _ => false
  | .consoleError => false
  | .alert _ => false
  | _ => true

/-! ## The handlers -/

/-- The two revisions of the component. -/
inductive Revision where
  | root
  | src
  deriving DecidableEq

/-- The constant `host` of `src/App.jsx`. -/
def host : String := "https://diapredictor-backend12122025.onrender.app"

/-- The address of the predict request: the literal of the root revision, the
template `${host}/predict` of `src/App.jsx`. -/
def predictUrl : Revision → String
  | .root => "http://127.0.0.1:5000/predict"
  | .src => host ++ "/predict"

/-- The message set when a field is empty. -/
def validationMessage : String := "Please fill in all fields before predicting"

/-- The message of the `catch` block for a client that reports being online. -/
def serverMessage : String :=
  "Failed to connect to server. Please check if backend is running on port 5000."

/-- The message of the `catch` block for a client that reports being offline. -/
def offlineMessage : String :=
  "No internet connection. Please check your network and try again."

/-- The list `Object.entries(formData).filter(([_, value]) => value === '')`. -/
def emptyFields (formData : FormData) : List (String × String) :=
  formData.entries.filter fun entry => entry.2 == ""

/-- The object handed to `JSON.stringify` in `handleSubmit`. -/
def predictPayload (parseFloat : String → JSNumber) (rev : Revision) (formData : FormData) :
    List (String × JSNumber) :=
  match rev with
  | .root =>
    [("pregnancies", parseFloat formData.pregnancies),
     ("glucose", parseFloat formData.glucose),
     ("bloodPressure", parseFloat formData.bloodPressure),
     ("skinThickness", parseFloat formData.skinThickness),
     ("insulin", parseFloat formData.insulin),
     ("bmi", parseFloat formData.bmi),
     ("diabetesPedigreeFunction", parseFloat formData.diabetesPedigreeFunction),
     ("age", parseFloat formData.age)]
  | .src =>
    [("Pregnancies", parseFloat formData.pregnancies),
     ("Glucose", parseFloat formData.glucose),
     ("BloodPressure", parseFloat formData.bloodPressure),
     ("SkinThickness", parseFloat formData.skinThickness),
     ("Insulin", parseFloat formData.insulin),
     ("BMI", parseFloat formData.bmi),
     ("DiabetesPedigreeFunction", parseFloat formData.diabetesPedigreeFunction),
     ("Age", parseFloat formData.age)]

/-- The key of the payload under which a form field is sent. -/
def payloadKey : Revision → FieldName → String
  | .root, name => name.key
  | .src, .pregnancies => "Pregnancies"
  | .src, .glucose => "Glucose"
  | .src, .bloodPressure => "BloodPressure"
  | .src, .skinThickness => "SkinThickness"
  | .src, .insulin => "Insulin"
  | .src, .bmi => "BMI"
  | .src, .diabetesPedigreeFunction => "DiabetesPedigreeFunction"
  | .src, .age => "Age"

/-- The `fetch` call of `handleSubmit`. -/
def predictRequest (parseFloat : String → JSNumber) (rev : Revision) (formData : FormData) :
    Request :=
  { url := predictUrl rev
    method := "POST"
    headers := [("Content-Type", "application/json")]
    body := some (predictPayload parseFloat rev formData) }

/-- The `try` block of `handleSubmit` once the request has settled: the effects it
performs when it completes, `none` when it throws (the `fetch` rejects, the status is
not a success and `Error('Prediction failed')` is thrown, or `response.json()`
rejects). -/
def handleSubmitTry : FetchOutcome → Option (List Effect)
  | .rejected => none
  | .resolved false _ => none
  | .resolved true none => none
  | .resolved true (some data) => some [.setResult data]

/-- The `catch` block of `handleSubmit`. -/
def handleSubmitCatch (rev : Revision) (online : Bool) : List Effect :=
  match rev with
  | .root => [.setError (some serverMessage)]
  | .src =>
    [if online then .setError (some serverMessage) else .setError (some offlineMessage),
     .consoleError]

/-- The `finally` block of `handleSubmit`. -/
def handleSubmitFinally : List Effect := [.setLoading false]

/-- The part of `handleSubmit` that runs up to the `await fetch(...)`, or up to the
early `return`; the flag tells whether a request is pending. -/
def handleSubmitStart (parseFloat : String → JSNumber) (rev : Revision) (formData : FormData) :
    List Effect × Bool :=
  let guards : List Effect :=
    [.preventDefault, .setLoading true, .setError none, .setResult .null]
  if (emptyFields formData).length > 0 then
    (guards ++ [.setError (some validationMessage), .setLoading false], false)
  else
    (guards ++ [.fetch (predictRequest parseFloat rev formData)], true)

/-- The part of `handleSubmit` that runs once the request has settled. -/
def handleSubmitResume (rev : Revision) (online : Bool) (outcome : FetchOutcome) : List Effect :=
  (match handleSubmitTry outcome with
    | some effects => effects
    | none => handleSubmitCatch rev online) ++ handleSubmitFinally

/-- The handler `handleSubmit`, run to completion: `formData` is the value captured by the
handler, `outcome` the way its request settles (not consulted when none is issued). -/
def handleSubmit (parseFloat : String → JSNumber) (rev : Revision) (formData : FormData)
    (online : Bool) (outcome : FetchOutcome) : List Effect :=
  let start := handleSubmitStart parseFloat rev formData
  if start.2 then start.1 ++ handleSubmitResume rev online outcome else start.1

/-- The handler `handleInputChange`, for the event target `{ name, value }`. -/
def handleInputChange (name : FieldName) (value : String) : List Effect :=
  [.updateFormData name value, .setError none]

/-- The handler `resetForm`. -/
def resetForm : List Effect :=
  [.setFormData FormData.empty, .setResult .null, .setError none]

/-- The operation submit: the state after `handleSubmit` has run to completion. -/
def submit (parseFloat : String → JSNumber) (rev : Revision) (online : Bool)
    (outcome : FetchOutcome) (s : State) : State :=
  run s (handleSubmit parseFloat rev s.formData online outcome)

/-- The operation update field. -/
def updateField (name : FieldName) (value : String) (s : State) : State :=
  run s (handleInputChange name value)

/-- The operation reset. -/
def reset (s : State) : State :=
  run s resetForm

/-! ## The health check, training and the screen toggles -/

/-- The address of the health check: the literal of the root revision, the template
`${host}/health` of `src/App.jsx`. -/
def healthUrl : Revision → String
  | .root => "http://127.0.0.1:5000/health"
  | .src => host ++ "/health"

/-- The call `fetch(url)` of `fetchAccuracy`: without options, hence a GET without a
body. -/
def healthRequest (rev : Revision) : Request :=
  { url := healthUrl rev, method := "GET", headers := [], body := none }

/-- The `try` block of `fetchAccuracy` once the request has settled: the effects it
performs when it completes, `none` when it throws (the `fetch` rejects, `response.json()`
rejects, or reading `data.accuracy` throws).  The status of the response is not
consulted. -/
def fetchAccuracyTry : FetchOutcome → Option (List Effect)
  | .rejected => none
  | .resolved _ none => none
  | .resolved _ (some data) =>
    match data.getProperty "accuracy" with
    | none => none
    | some accuracy => some (if accuracy.toBoolean then [.setModelAccuracy accuracy] else [])

/-- The function `fetchAccuracy` called by the mount effect, run to completion. -/
def fetchAccuracy (rev : Revision) (outcome : FetchOutcome) : List Effect :=
  [.fetch (healthRequest rev)] ++
    match fetchAccuracyTry outcome with
    | some effects => effects
    | none => [.consoleError]

/-- The call `fetch(url, { method: 'POST' })` of `handleTrain`. -/
def trainRequest : Request :=
  { url := host ++ "/train", method := "POST", headers := [], body := none }

/-- The `try` block of `handleTrain` once the request has settled: the effects it performs
when it completes, `none` when it throws (the `fetch` rejects, the status is not a success
and `Error('Training failed')` is thrown, `response.json()` rejects, or reading
`data.accuracy` throws). -/
def handleTrainTry : FetchOutcome → Option (List Effect)
  | .rejected => none
  | .resolved false _ => none
  | .resolved true none => none
  | .resolved true (some data) =>
    match data.getProperty "accuracy" with
    | none => none
    | some accuracy => some [.alert (.trainingCompleted accuracy), .setModelAccuracy accuracy]

/-- The `catch` block of `handleTrain`. -/
def handleTrainCatch (online : Bool) : List Effect :=
  [if online then .alert (.text serverMessage) else .alert (.text offlineMessage),
   .consoleError]

/-- The handler `handleTrain` of `src/App.jsx`, run to completion. -/
def handleTrain (online : Bool) (outcome : FetchOutcome) : List Effect :=
  [.fetch trainRequest] ++
    match handleTrainTry outcome with
    | some effects => effects
    | none => handleTrainCatch online

/-- The handler `() => setShowAssessment(true)` of the proceed button. -/
def proceedToAssessment : List Effect := [.setShowAssessment true]

/-- The handler `() => setShowAssessment(false)` of the back button. -/
def backToHome : List Effect := [.setShowAssessment false]

/-- The handler `() => setTraining(!training)`, for the captured value of `training`. -/
def toggleTraining (training : Bool) : List Effect := [.setTraining (!training)]

/-- The operation run on first activation: the state after `fetchAccuracy`. -/
def mount (rev : Revision) (outcome : FetchOutcome) (s : State) : State :=
  run s (fetchAccuracy rev outcome)

/-- The operation train without argument: the state after `handleTrain`. -/
def train (online : Bool) (outcome : FetchOutcome) (s : State) : State :=
  run s (handleTrain online outcome)

/-! ## The root revision of the two synchronous handlers -/

namespace Root

/-- The handler `handleInputChange` as written in `App.jsx` at the repository root. -/
def handleInputChange (name : FieldName) (value : String) : List Effect :=
  [.updateFormData name value, .setError none]

/-- The handler `resetForm` as written in `App.jsx` at the repository root. -/
def resetForm : List Effect :=
  [.setFormData
    { pregnancies := "", glucose := "", bloodPressure := "", skinThickness := "",
      insulin := "", bmi := "", diabetesPedigreeFunction := "", age := "" },
   .setResult .null, .setError none]

end Root

/-! ## Sessions -/

/-- The events of a session of the component.  A submit is two events, the click and the
settling of its request, so that other events can fall in between; the mount effect and
`handleTrain` write no state before their request settles and are one event each.
`upload` stands for `handleDrop` and `handleFileUpload`, which post a file, raise an alert
and clear the file input, and call no state setter. -/
inductive Event where
  | mounted (outcome : FetchOutcome)
  | inputChange (name : FieldName) (value : String)
  | submitStart
  | submitSettled (online : Bool) (outcome : FetchOutcome)
  | reset
  | train (online : Bool) (outcome : FetchOutcome)
  | upload
  | proceed
  | back
  | toggleTraining

/-- The component state together with the number of predict requests in flight. -/
structure Session where
  state : State
  inFlight : Nat

/-- The session of a freshly created component. -/
def Session.fresh : Session := { state := State.initial, inFlight := 0 }

/-- The session after one event, with the handlers taken as operations that can be
invoked in any state: what the page renders is not consulted (see `Session.pageStep`).
The settling of a predict request is possible only while one is in flight;
`handleTrain` and the training panel exist in `src/App.jsx` only. -/
def Session.step (parseFloat : String → JSNumber) (rev : Revision) (c : Session) :
    Event → Session
  | .mounted outcome => { c with state := run c.state (fetchAccuracy rev outcome) }
  | .inputChange name value => { c with state := run c.state (handleInputChange name value) }
  | .submitStart =>
    let start := handleSubmitStart parseFloat rev c.state.formData
    { state := run c.state start.1
      inFlight := if start.2 then c.inFlight + 1 else c.inFlight }
  | .submitSettled online outcome =>
    if c.inFlight > 0 then
      { state := run c.state (handleSubmitResume rev online outcome)
        inFlight := c.inFlight - 1 }
    else c
  | .reset => { c with state := run c.state resetForm }
  | .train online outcome =>
    match rev with
    | .root => c
    | .src => { c with state := run c.state (handleTrain online outcome) }
  | .upload => c
  | .proceed => { c with state := run c.state proceedToAssessment }
  | .back => { c with state := run c.state backToHome }
  | .toggleTraining =>
    match rev with
    | .root => c
    | .src => { c with state := run c.state (toggleTraining c.state.training) }

/-- The session after a sequence of events. -/
def Session.run (parseFloat : String → JSNumber) (rev : Revision) (c : Session)
    (events : List Event) : Session :=
  events.foldl (Session.step parseFloat rev) c

/-- The response body an event delivers: the parsed body of a predict response with a
success status, arriving for a request in flight. -/
def Session.delivered (c : Session) : Event → Option JSValue
  | .submitSettled _ (.resolved true (some body)) => if c.inFlight > 0 then some body else none
  | _ => none

/-- The body of the most recent successful predict response in a sequence of events
that starts in session `c`; `none` when there is none. -/
def Session.lastDelivered (parseFloat : String → JSNumber) (rev : Revision) (c : Session) :
    List Event → Option JSValue
  | [] => none
  | event :: events =>
    match Session.lastDelivered parseFloat rev (c.step parseFloat rev event) events with
    | some body => some body
    | none => c.delivered event

/-! ## The HTTP client wrapper -/

/-- The request configuration handled by the axios instance of `services/api.js`. -/
structure AxiosConfig where
  baseURL : String
  headers : List (String × String)
  timeout : Nat
  method : String
  url : String
  data : JSValue

/-- The response object of axios, as far as the wrapper reads it. -/
structure AxiosResponse where
  status : Nat
  data : JSValue

/-- The error object of axios, as far as the wrapper reads it: `error.response`,
whether `error.request` is set, and `error.message`. -/
structure AxiosError where
  response : Option AxiosResponse
  request : Bool
  message : String

/-- The console lines written by the two interceptors. -/
inductive Log where
  | makingRequest (url : String)
  | responseError (data : JSValue)
  | noResponse
  | error (message : String)

/-- The constant `API_BASE_URL`. -/
def API_BASE_URL : String := "http://localhost:5000"

/-- The configuration of a call `api.post(url, data)`: the defaults given to
`axios.create`, the method, the address and the data. -/
def postConfig (url : String) (data : JSValue) : AxiosConfig :=
  { baseURL := API_BASE_URL
    headers := [("Content-Type", "application/json")]
    timeout := 10000
    method := "post"
    url := url
    data := data }

/-- The request interceptor: it logs the address and returns the configuration. -/
def requestInterceptor (config : AxiosConfig) : List Log × AxiosConfig :=
  ([.makingRequest config.url], config)

/-- The response interceptor: a response is returned as it is; an error is logged,
by the first of `error.response`, `error.request` that is set, and rejected again. -/
def responseInterceptor :
    Except AxiosError AxiosResponse → List Log × Except AxiosError AxiosResponse
  | .ok response => ([], .ok response)
  | .error error =>
    ([match error.response with
      | some response => .responseError response.data
      | none => if error.request then .noResponse else .error error.message],
     .error error)

/-- The call `api.post(url, data)`: `adapter` is the transport of axios, which answers
a configuration with a response or fails with an error. -/
def apiPost (adapter : AxiosConfig → Except AxiosError AxiosResponse) (url : String)
    (data : JSValue) : List Log × Except AxiosError AxiosResponse :=
  let sent := requestInterceptor (postConfig url data)
  let received := responseInterceptor (adapter sent.2)
  (sent.1 ++ received.1, received.2)

/-- The function `predictDiabetes`: the console lines and the value returned or the error
thrown. -/
def predictDiabetes (adapter : AxiosConfig → Except AxiosError AxiosResponse)
    (patientData : JSValue) : List Log × Except AxiosError JSValue :=
  let posted := apiPost adapter "/predict" patientData
  match posted.2 with
  | .ok response => (posted.1, .ok response.data)
  | .error error => (posted.1, .error error)

/-- The function `predictBatch`: the console lines and the value returned or the error
thrown. -/
def predictBatch (adapter : AxiosConfig → Except AxiosError AxiosResponse)
    (patientsData : JSValue) : List Log × Except AxiosError JSValue :=
  let posted := apiPost adapter "/predict/batch" (.object [("patients", patientsData)])
  match posted.2 with
  | .ok response => (posted.1, .ok response.data)
  | .error error => (posted.1, .error error)

/-! ## Rendering -/

/-- The heading of the confidence explanation, chosen by the conditional chain on
`result.probability`. -/
def confidenceBand (probability : JsonNumber) : String :=
  if probability.ge 90 then "Very High Confidence"
  else if probability.ge 75 then "High Confidence"
  else if probability.ge 60 then "Moderate Confidence"
  else "Low Confidence"

/-- Whether the page shows the button bound to `resetForm`: the button is part of the
result card, which the assessment screen renders by `{result && (...)}`. -/
def resetOffered (s : State) : Bool :=
  s.showAssessment && s.result.toBoolean

/-- Whether the predict button can be clicked: it is rendered on the assessment screen
with `disabled={loading}`.  The `onSubmit` of the form in `src/App.jsx` clicks this
button, which does nothing while the button is disabled. -/
def predictEnabled (s : State) : Bool :=
  s.showAssessment && !s.loading

/-! ## The page -/

/-- Whether the page can produce an event in a session.  The inputs, the predict
button, the reset button and the back button belong to the assessment screen, the
proceed button and the training toggle to the landing page.  The events that stand
for the arrival of a response (`mounted`, `train`, `upload`) are possible in every
state: the click that led to them may lie in the past. -/
def Session.offered (c : Session) : Event → Bool
  | .mounted _ => true
  | .inputChange _ _ => c.state.showAssessment
  | .submitStart => predictEnabled c.state
  | .submitSettled _ _ => decide (c.inFlight > 0)
  | .reset => resetOffered c.state
  | .train _ _ => true
  | .upload => true
  | .proceed => !c.state.showAssessment
  | .back => c.state.showAssessment
  | .toggleTraining => !c.state.showAssessment

/-- The session after one event of the page: an event that the page does not offer
does not happen. -/
def Session.pageStep (parseFloat : String → JSNumber) (rev : Revision) (c : Session)
    (event : Event) : Session :=
  if c.offered event then c.step parseFloat rev event else c

/-- The session after a sequence of events of the page. -/
def Session.pageRun (parseFloat : String → JSNumber) (rev : Revision) (c : Session)
    (events : List Event) : Session :=
  events.foldl (Session.pageStep parseFloat rev) c

/-- The invariant of the sessions of the page: at most one predict request is in
flight, and while one is, the result is null and `loading` is true. -/
def Session.inFlightGuarded (c : Session) : Prop :=
  c.inFlight ≤ 1 ∧ (c.inFlight = 1 → c.state.result = JSValue.null ∧ c.state.loading = true)

/-! ## Concrete data -/

/-- The events of a user who opens the assessment screen, fills in the sample form and
clicks the predict button. -/
def fillAndSubmit : List Event :=
  [.proceed,
   .inputChange .pregnancies "2", .inputChange .glucose "120",
   .inputChange .bloodPressure "70", .inputChange .skinThickness "20",
   .inputChange .insulin "80", .inputChange .bmi "25",
   .inputChange .diabetesPedigreeFunction "1", .inputChange .age "33",
   .submitStart]


/-- A stand-in for `parseFloat` at concrete inputs: it agrees with `parseFloat` on
non-empty strings of decimal digits, the only strings it is meant for. -/
def parseDigits (s : String) : JSNumber :=
  match s.toNat? with
  | some n => .ofJson (.fin n)
  | none => .nan

/-- A form with all eight fields filled in. -/
def sampleForm : FormData :=
  { pregnancies := "2", glucose := "120", bloodPressure := "70", skinThickness := "20",
    insulin := "80", bmi := "25", diabetesPedigreeFunction := "1", age := "33" }

/-- The response body `{prediction: 1, probability: 87, risk_level: "High"}`. -/
def highRiskBody : JSValue :=
  .object [("prediction", .number 1), ("probability", .number 87), ("risk_level", .string "High")]

/-- The health-check body `{accuracy: 0}`. -/
def zeroAccuracyBody : JSValue := .object [("accuracy", .number 0)]

/-- The health-check or training body `{accuracy: 78}`. -/
def accuracyBody : JSValue := .object [("accuracy", .number 78)]

/-- A stand-in for `parseFloat` at concrete inputs that extends `parseDigits`: the
string "abc", which has no numeric beginning, parses to NaN. -/
def parseSample (s : String) : JSNumber :=
  if s = "abc" then .nan else parseDigits s

/-- A state of the assessment screen that shows an earlier result and an earlier error,
with `sampleForm` entered. -/
def sampleState : State :=
  { showAssessment := true, loading := false, result := .string "earlier",
    error := some "earlier error", modelAccuracy := .number 78, training := false,
    formData := sampleForm }

/-! ## Validation -/

theorem emptyFields_eq_nil_iff (formData : FormData) :
    emptyFields formData = [] ↔ ∀ name, formData.get name ≠ "" := by
  constructor
  · intro h name
    have hall := List.filter_eq_nil_iff.mp h
    have hmem : (name.key, formData.get name) ∈ formData.entries :=
      List.mem_map.mpr ⟨name, by cases name <;> simp [FieldName.all], rfl⟩
    simpa using hall _ hmem
  · intro h
    apply List.filter_eq_nil_iff.mpr
    intro entry hentry
    obtain ⟨name, -, rfl⟩ := List.mem_map.mp hentry
    simpa using h name

theorem emptyFields_length_pos_iff (formData : FormData) :
    (emptyFields formData).length > 0 ↔ ∃ name, formData.get name = "" := by
  rw [gt_iff_lt, List.length_pos, Ne, emptyFields_eq_nil_iff]
  push_neg
  rfl

theorem handleSubmit_blocked (parseFloat : String → JSNumber) (rev : Revision)
    (formData : FormData) (online : Bool) (outcome : FetchOutcome)
    (h : ∃ name, formData.get name = "") :
    handleSubmit parseFloat rev formData online outcome =
      [.preventDefault, .setLoading true, .setError none, .setResult .null,
       .setError (some validationMessage), .setLoading false] := by
  have hpos := (emptyFields_length_pos_iff formData).mpr h
  simp [handleSubmit, handleSubmitStart, hpos]

theorem handleSubmit_populated (parseFloat : String → JSNumber) (rev : Revision)
    (formData : FormData) (online : Bool) (outcome : FetchOutcome)
    (h : ∀ name, formData.get name ≠ "") :
    handleSubmit parseFloat rev formData online outcome =
      [.preventDefault, .setLoading true, .setError none, .setResult .null,
       .fetch (predictRequest parseFloat rev formData)] ++
        handleSubmitResume rev online outcome := by
  have hnil := (emptyFields_eq_nil_iff formData).mpr h
  simp [handleSubmit, handleSubmitStart, hnil]


theorem sampleForm_populated : ∀ name, sampleForm.get name ≠ "" := by
  intro name
  cases name <;> decide

/-! ## Submit -/

/-- C1: when at least one of the eight fields is the empty string, submit issues no
request, leaves the error equal to the fixed validation message, leaves the result null
and ends with `loading = false`; this holds in both revisions, whatever the state before
the submit. -/
theorem submit_empty_field_blocked (parseFloat : String → JSNumber) (rev : Revision)
    (online : Bool) (outcome : FetchOutcome) (s : State)
    (h : ∃ name, s.formData.get name = "") :
    requests (handleSubmit parseFloat rev s.formData online outcome) = [] ∧
      (submit parseFloat rev online outcome s).error =
        some "Please fill in all fields before predicting" ∧
      (submit parseFloat rev online outcome s).result = JSValue.null ∧
      (submit parseFloat rev online outcome s).loading = false := by
  have htrace := handleSubmit_blocked parseFloat rev s.formData online outcome h
  refine ⟨?_, ?_, ?_, ?_⟩
  · rw [htrace]; rfl
  · rw [submit, htrace]; rfl
  · rw [submit, htrace]; rfl
  · rw [submit, htrace]; rfl

/-- Witness of C1: the sample form with the age field emptied, submitted from a state that
shows an earlier result. -/
theorem submit_empty_field_blocked_witness :
    (∃ name, FormData.get { sampleForm with age := "" } name = "") ∧
      requests (handleSubmit parseDigits Revision.src { sampleForm with age := "" } true
        (FetchOutcome.resolved true (some highRiskBody))) = [] ∧
      (submit parseDigits Revision.src true (FetchOutcome.resolved true (some highRiskBody))
        { sampleState with formData := { sampleForm with age := "" } }).error =
        some "Please fill in all fields before predicting" ∧
      (submit parseDigits Revision.src true (FetchOutcome.resolved true (some highRiskBody))
        { sampleState with formData := { sampleForm with age := "" } }).result =
        JSValue.null ∧
      (submit parseDigits Revision.src true (FetchOutcome.resolved true (some highRiskBody))
        { sampleState with formData := { sampleForm with age := "" } }).loading = false :=
  ⟨⟨FieldName.age, rfl⟩,
    submit_empty_field_blocked parseDigits Revision.src true
      (FetchOutcome.resolved true (some highRiskBody))
      { sampleState with formData := { sampleForm with age := "" } } ⟨FieldName.age, rfl⟩⟩

/-- C2: when all eight fields are non-empty, as they are when each holds a valid numeric
string, submit issues exactly one request: a POST to the predict address whose body has
exactly eight entries, the values being `parseFloat` of the eight form fields in order. -/
theorem submit_populated_one_request (parseFloat : String → JSNumber) (rev : Revision)
    (online : Bool) (outcome : FetchOutcome) (formData : FormData)
    (h : ∀ name, formData.get name ≠ "") :
    ∃ req body,
      requests (handleSubmit parseFloat rev formData online outcome) = [req] ∧
      req.method = "POST" ∧
      req.url = predictUrl rev ∧
      req.body = some body ∧
      body.length = 8 ∧
      body.map Prod.snd = FieldName.all.map fun name => parseFloat (formData.get name) := by
  refine ⟨predictRequest parseFloat rev formData, predictPayload parseFloat rev formData,
    ?_, rfl, rfl, rfl, ?_, ?_⟩
  · rw [handleSubmit_populated parseFloat rev formData online outcome h]
    rcases outcome with _ | ⟨_ | _, _ | _⟩ <;> cases rev <;> cases online <;> rfl
  · cases rev <;> rfl
  · cases rev <;> rfl

/-- Witness of C2: the sample form, submitted in the served revision. -/
theorem submit_populated_one_request_witness :
    (∀ name, sampleForm.get name ≠ "") ∧
      predictUrl Revision.src = "https://diapredictor-backend12122025.onrender.app/predict" ∧
      ∃ req body,
        requests (handleSubmit parseDigits Revision.src sampleForm true
          FetchOutcome.rejected) = [req] ∧
        req.method = "POST" ∧
        req.url = predictUrl Revision.src ∧
        req.body = some body ∧
        body.length = 8 ∧
        body.map Prod.snd = FieldName.all.map fun name => parseDigits (sampleForm.get name) :=
  ⟨sampleForm_populated, by decide,
    submit_populated_one_request parseDigits Revision.src true FetchOutcome.rejected
      sampleForm sampleForm_populated⟩

/-- C3: for a form with all eight fields non-empty and a response with a success status
whose body parses to `b`, the result after submit is `b` and the error is null, whatever the
result and the error were before. -/
theorem submit_success_stores_body (parseFloat : String → JSNumber) (rev : Revision)
    (online : Bool) (s : State) (b : JSValue)
    (h : ∀ name, s.formData.get name ≠ "") :
    (submit parseFloat rev online (FetchOutcome.resolved true (some b)) s).result = b ∧
      (submit parseFloat rev online (FetchOutcome.resolved true (some b)) s).error = none := by
  rw [submit, handleSubmit_populated parseFloat rev s.formData online _ h]
  exact ⟨rfl, rfl⟩

/-- Witness of C3: the body `{prediction: 1, probability: 87, risk_level: "High"}`, arriving
in a state that shows an earlier result and an earlier error. -/
theorem submit_success_stores_body_witness :
    (∀ name, sampleState.formData.get name ≠ "") ∧
      sampleState.result ≠ JSValue.null ∧ sampleState.error ≠ none ∧
      (submit parseDigits Revision.src true (FetchOutcome.resolved true (some highRiskBody))
        sampleState).result =
        JSValue.object [("prediction", JSValue.number 1), ("probability", JSValue.number 87),
          ("risk_level", JSValue.string "High")] ∧
      (submit parseDigits Revision.src true (FetchOutcome.resolved true (some highRiskBody))
        sampleState).error = none :=
  ⟨sampleForm_populated, by simp [sampleState], by simp [sampleState],
    submit_success_stores_body parseDigits Revision.src true sampleState highRiskBody
      sampleForm_populated⟩

/-- C4: for a form with all eight fields non-empty, when the predict call throws, because
the request is rejected or because parsing the response body fails, the result after submit
is null, whatever it was before, and the error is a message. -/
theorem submit_thrown_clears_result (parseFloat : String → JSNumber) (rev : Revision)
    (online : Bool) (outcome : FetchOutcome) (s : State)
    (h : ∀ name, s.formData.get name ≠ "")
    (hthrow : outcome = FetchOutcome.rejected ∨ outcome = FetchOutcome.resolved true none) :
    (submit parseFloat rev online outcome s).result = JSValue.null ∧
      ∃ message, (submit parseFloat rev online outcome s).error = some message := by
  rw [submit, handleSubmit_populated parseFloat rev s.formData online outcome h]
  rcases hthrow with rfl | rfl <;> cases rev <;> cases online <;>
    exact ⟨rfl, _, rfl⟩

/-- Witness of C4: the request is rejected while an earlier result is shown. -/
theorem submit_thrown_clears_result_witness :
    (∀ name, sampleState.formData.get name ≠ "") ∧
      sampleState.result ≠ JSValue.null ∧
      (submit parseDigits Revision.src true FetchOutcome.rejected sampleState).result =
        JSValue.null ∧
      ∃ message,
        (submit parseDigits Revision.src true FetchOutcome.rejected sampleState).error =
          some message :=
  ⟨sampleForm_populated, by simp [sampleState],
    submit_thrown_clears_result parseDigits Revision.src true FetchOutcome.rejected sampleState
      sampleForm_populated (Or.inl rfl)⟩

/-- C5: on every path of submit (validation failure, non-success status, thrown error,
success), in both revisions, the writes to `loading` are `true` and then `false`, each once;
the write of `true` is the first state write of the handler; and `loading` is false when
submit finishes. -/
theorem submit_loading_discipline (parseFloat : String → JSNumber) (rev : Revision)
    (online : Bool) (outcome : FetchOutcome) (s : State) :
    loadingWrites (handleSubmit parseFloat rev s.formData online outcome) = [true, false] ∧
      ((handleSubmit parseFloat rev s.formData online outcome).filter
        Effect.isStateWrite).head? = some (Effect.setLoading true) ∧
      (submit parseFloat rev online outcome s).loading = false := by
  by_cases h : ∃ name, s.formData.get name = ""
  · rw [submit, handleSubmit_blocked parseFloat rev s.formData online outcome h]
    exact ⟨rfl, rfl, rfl⟩
  · have hall : ∀ name, s.formData.get name ≠ "" := by
      intro name hname
      exact h ⟨name, hname⟩
    rw [submit, handleSubmit_populated parseFloat rev s.formData online outcome hall]
    rcases outcome with _ | ⟨_ | _, _ | _⟩ <;> cases rev <;> cases online <;>
      exact ⟨rfl, rfl, rfl⟩


/-! ## Update field and reset -/

theorem FormData.get_set_self (prev : FormData) (name : FieldName) (value : String) :
    (prev.set name value).get name = value := by
  cases name <;> rfl

/-- C6: for every state, every field name and every value, the empty string included,
update field yields a state in which that field equals the value and the error is null,
whatever the error was before. -/
theorem updateField_sets_field_clears_error (s : State) (name : FieldName) (value : String) :
    (updateField name value s).formData.get name = value ∧
      (updateField name value s).error = none :=
  ⟨FormData.get_set_self s.formData name value, rfl⟩

/-- C7: for every state, reset yields a state in which all eight fields are the empty
string and the result and the error are null, while the model accuracy, the current screen,
the training-panel flag and `loading` are as before. -/
theorem reset_clears_form_keeps_rest (s : State) :
    (∀ name, (reset s).formData.get name = "") ∧
      (reset s).result = JSValue.null ∧
      (reset s).error = none ∧
      (reset s).modelAccuracy = s.modelAccuracy ∧
      (reset s).showAssessment = s.showAssessment ∧
      (reset s).training = s.training ∧
      (reset s).loading = s.loading := by
  refine ⟨?_, rfl, rfl, rfl, rfl, rfl, rfl⟩
  intro name
  cases name <;> rfl

/-! ## Confidence band -/

theorem JsonNumber.lt_of_lt_of_lt (p a b : JsonNumber) (hab : a.lt b = true)
    (h : p.lt a = true) : p.lt b = true := by
  cases p <;> cases a <;> cases b <;> simp_all [JsonNumber.lt]
  exact lt_trans h hab

theorem JsonNumber.fin_lt_fin (a b : ℚ) : JsonNumber.fin a < JsonNumber.fin b ↔ a < b := by
  show (JsonNumber.fin a).lt (JsonNumber.fin b) = true ↔ a < b
  simp [JsonNumber.lt]

theorem JsonNumber.fin_le_fin (a b : ℚ) : JsonNumber.fin a ≤ JsonNumber.fin b ↔ a ≤ b := by
  show (JsonNumber.fin b).ge (JsonNumber.fin a) = true ↔ a ≤ b
  simp [JsonNumber.ge, JsonNumber.lt]

theorem confidenceBand_at_87 : confidenceBand 87 = "High Confidence" := by decide

theorem confidenceBand_at_posInf : confidenceBand JsonNumber.posInf = "Very High Confidence" := by
  decide

theorem confidenceBand_at_negInf : confidenceBand JsonNumber.negInf = "Low Confidence" := by
  decide

/-- C8: the confidence-band text depends on the probability alone and, for every numeric
probability `p`, is exactly one of the four band texts: "Very High Confidence" iff
`p >= 90`, "High Confidence" iff `75 <= p < 90`, "Moderate Confidence" iff `60 <= p < 75`,
and "Low Confidence" iff `p < 60`. -/
theorem confidenceBand_bands (p : JsonNumber) :
    (confidenceBand p = "Very High Confidence" ↔ p ≥ 90) ∧
      (confidenceBand p = "High Confidence" ↔ 75 ≤ p ∧ p < 90) ∧
      (confidenceBand p = "Moderate Confidence" ↔ 60 ≤ p ∧ p < 75) ∧
      (confidenceBand p = "Low Confidence" ↔ p < 60) ∧
      (∃! band, band ∈ ["Very High Confidence", "High Confidence", "Moderate Confidence",
          "Low Confidence"] ∧ confidenceBand p = band) := by
  have h9075 : (75 : JsonNumber).lt 90 = true := by decide
  have h7560 : (60 : JsonNumber).lt 75 = true := by decide
  have m75 : p.lt 60 = true → p.lt 75 = true := JsonNumber.lt_of_lt_of_lt p 60 75 h7560
  have m90 : p.lt 75 = true → p.lt 90 = true := JsonNumber.lt_of_lt_of_lt p 75 90 h9075
  show (_ ↔ p.ge 90 = true) ∧ (_ ↔ p.ge 75 = true ∧ p.lt 90 = true) ∧
    (_ ↔ p.ge 60 = true ∧ p.lt 75 = true) ∧ (_ ↔ p.lt 60 = true) ∧ _
  have hmem : confidenceBand p ∈ ["Very High Confidence", "High Confidence",
      "Moderate Confidence", "Low Confidence"] := by
    unfold confidenceBand
    split_ifs <;> simp
  refine ⟨?_, ?_, ?_, ?_, confidenceBand p, ⟨hmem, rfl⟩, fun band hband => hband.2.symm⟩
  all_goals
    unfold confidenceBand JsonNumber.ge
    cases h60 : p.lt 60 <;> cases h75 : p.lt 75 <;> cases h90 : p.lt 90 <;>
      simp_all

/-! ## The predict payload and the error messages -/

theorem predictPayload_root_keys (parseFloat : String → JSNumber) (formData : FormData) :
    (predictPayload parseFloat Revision.root formData).map Prod.fst =
      FieldName.all.map FieldName.key := rfl

/-- C9: the predict payload built by submit in `src/App.jsx` has exactly the keys
Pregnancies, Glucose, BloodPressure, SkinThickness, Insulin, BMI, DiabetesPedigreeFunction
and Age, spelled so, each carrying the parsed value of the form field of the same name. -/
theorem submit_payload_keys (parseFloat : String → JSNumber) (online : Bool)
    (outcome : FetchOutcome) (formData : FormData) (h : ∀ name, formData.get name ≠ "") :
    ∃ req,
      requests (handleSubmit parseFloat Revision.src formData online outcome) = [req] ∧
      req.body = some
        [("Pregnancies", parseFloat formData.pregnancies),
         ("Glucose", parseFloat formData.glucose),
         ("BloodPressure", parseFloat formData.bloodPressure),
         ("SkinThickness", parseFloat formData.skinThickness),
         ("Insulin", parseFloat formData.insulin),
         ("BMI", parseFloat formData.bmi),
         ("DiabetesPedigreeFunction", parseFloat formData.diabetesPedigreeFunction),
         ("Age", parseFloat formData.age)] := by
  refine ⟨predictRequest parseFloat Revision.src formData, ?_, rfl⟩
  rw [handleSubmit_populated parseFloat Revision.src formData online outcome h]
  rcases outcome with _ | ⟨_ | _, _ | _⟩ <;> cases online <;> rfl

/-- Witness of C9: the payload built from the sample form. -/
theorem submit_payload_keys_witness :
    (∀ name, sampleForm.get name ≠ "") ∧
      ∃ req,
        requests (handleSubmit parseDigits Revision.src sampleForm true
          (FetchOutcome.resolved true (some highRiskBody))) = [req] ∧
        req.body = some
          [("Pregnancies", parseDigits sampleForm.pregnancies),
           ("Glucose", parseDigits sampleForm.glucose),
           ("BloodPressure", parseDigits sampleForm.bloodPressure),
           ("SkinThickness", parseDigits sampleForm.skinThickness),
           ("Insulin", parseDigits sampleForm.insulin),
           ("BMI", parseDigits sampleForm.bmi),
           ("DiabetesPedigreeFunction", parseDigits sampleForm.diabetesPedigreeFunction),
           ("Age", parseDigits sampleForm.age)] :=
  ⟨sampleForm_populated,
    submit_payload_keys parseDigits true (FetchOutcome.resolved true (some highRiskBody))
      sampleForm sampleForm_populated⟩

/-- C10: in `src/App.jsx`, when the predict call throws, the error message is chosen by
`navigator.onLine`: the "No internet connection" message when the client reports being
offline, the "Failed to connect to server" message when it reports being online; and the two
messages are different. -/
theorem submit_thrown_message_by_connectivity (parseFloat : String → JSNumber)
    (outcome : FetchOutcome) (s : State) (h : ∀ name, s.formData.get name ≠ "")
    (hthrow : outcome = FetchOutcome.rejected ∨ outcome = FetchOutcome.resolved true none) :
    (submit parseFloat Revision.src false outcome s).error =
        some "No internet connection. Please check your network and try again." ∧
      (submit parseFloat Revision.src true outcome s).error =
        some "Failed to connect to server. Please check if backend is running on port 5000." ∧
      "No internet connection. Please check your network and try again." ≠
        "Failed to connect to server. Please check if backend is running on port 5000." := by
  refine ⟨?_, ?_, by decide⟩
  · rw [submit, handleSubmit_populated parseFloat Revision.src s.formData false outcome h]
    rcases hthrow with rfl | rfl <;> rfl
  · rw [submit, handleSubmit_populated parseFloat Revision.src s.formData true outcome h]
    rcases hthrow with rfl | rfl <;> rfl

/-- Witness of C10: the response body of the sample submit fails to parse. -/
theorem submit_thrown_message_by_connectivity_witness :
    (∀ name, sampleState.formData.get name ≠ "") ∧
      (submit parseDigits Revision.src false (FetchOutcome.resolved true none)
        sampleState).error =
        some "No internet connection. Please check your network and try again." ∧
      (submit parseDigits Revision.src true (FetchOutcome.resolved true none)
        sampleState).error =
        some "Failed to connect to server. Please check if backend is running on port 5000." ∧
      "No internet connection. Please check your network and try again." ≠
        "Failed to connect to server. Please check if backend is running on port 5000." :=
  ⟨sampleForm_populated,
    submit_thrown_message_by_connectivity parseDigits (FetchOutcome.resolved true none)
      sampleState sampleForm_populated (Or.inr rfl)⟩


/-! ## The health check and training -/

theorem run_append (s : State) (first second : List Effect) :
    run s (first ++ second) = run (run s first) second := by
  simp [run, List.foldl_append]

theorem fetchAccuracy_frame (rev : Revision) (outcome : FetchOutcome) (s : State) :
    (mount rev outcome s).formData = s.formData ∧
      (mount rev outcome s).result = s.result ∧
      (mount rev outcome s).error = s.error ∧
      (mount rev outcome s).loading = s.loading := by
  unfold mount fetchAccuracy
  rcases outcome with _ | ⟨ok, _ | data⟩
  · exact ⟨rfl, rfl, rfl, rfl⟩
  · exact ⟨rfl, rfl, rfl, rfl⟩
  · simp only [fetchAccuracyTry]
    cases data.getProperty "accuracy" with
    | none => exact ⟨rfl, rfl, rfl, rfl⟩
    | some accuracy => cases h : accuracy.toBoolean <;> simp [run, Effect.apply, h]

/-- C11, the claim as stated fails: for the health-check body `{accuracy: 0}`, which
contains a numeric accuracy, the mount effect leaves the model accuracy at null instead of
storing 0. -/
theorem mount_zero_accuracy_not_stored :
    zeroAccuracyBody.getProperty "accuracy" = some (JSValue.number 0) ∧
      (mount Revision.src (FetchOutcome.resolved true (some zeroAccuracyBody))
        State.initial).modelAccuracy = JSValue.null ∧
      (mount Revision.src (FetchOutcome.resolved true (some zeroAccuracyBody))
        State.initial).modelAccuracy ≠ JSValue.number 0 := by
  refine ⟨rfl, rfl, ?_⟩
  show JSValue.null ≠ JSValue.number 0
  exact fun h => JSValue.noConfusion h

/-- C11, amended: the mount effect stores the accuracy of the health-check response into the
model accuracy whenever the response has one that is truthy, so for every numeric accuracy
other than 0; when the health check fails, or the response has no accuracy or an accuracy
that is not truthy, such as 0, the model accuracy is as before; and in every case the form
data, the result, the error and `loading` are as before. -/
theorem mount_stores_truthy_accuracy (rev : Revision) (s : State) :
    (∀ ok data accuracy, data.getProperty "accuracy" = some accuracy →
        accuracy.toBoolean = true →
        (mount rev (FetchOutcome.resolved ok (some data)) s).modelAccuracy = accuracy) ∧
      (∀ ok data (q : ℚ), data.getProperty "accuracy" = some (JSValue.number (JsonNumber.fin q)) →
        q ≠ 0 →
        (mount rev (FetchOutcome.resolved ok (some data)) s).modelAccuracy =
          JSValue.number (JsonNumber.fin q)) ∧
      (∀ ok data accuracy, data.getProperty "accuracy" = some accuracy →
        accuracy.toBoolean = false →
        (mount rev (FetchOutcome.resolved ok (some data)) s).modelAccuracy = s.modelAccuracy) ∧
      (∀ ok data, data.getProperty "accuracy" = none →
        (mount rev (FetchOutcome.resolved ok (some data)) s).modelAccuracy = s.modelAccuracy) ∧
      (mount rev FetchOutcome.rejected s).modelAccuracy = s.modelAccuracy ∧
      (∀ ok, (mount rev (FetchOutcome.resolved ok none) s).modelAccuracy = s.modelAccuracy) ∧
      (∀ outcome,
        (mount rev outcome s).formData = s.formData ∧
        (mount rev outcome s).result = s.result ∧
        (mount rev outcome s).error = s.error ∧
        (mount rev outcome s).loading = s.loading) := by
  have stored : ∀ ok data accuracy, data.getProperty "accuracy" = some accuracy →
      accuracy.toBoolean = true →
      (mount rev (FetchOutcome.resolved ok (some data)) s).modelAccuracy = accuracy := by
    intro ok data accuracy hread htruthy
    simp [mount, fetchAccuracy, fetchAccuracyTry, hread, htruthy, run, Effect.apply]
  refine ⟨stored, ?_, ?_, ?_, rfl, fun _ => rfl, fun outcome => fetchAccuracy_frame rev outcome s⟩
  · intro ok data q hread hq
    exact stored ok data _ hread (by simp [JSValue.toBoolean, hq])
  · intro ok data accuracy hread hfalsy
    simp [mount, fetchAccuracy, fetchAccuracyTry, hread, hfalsy, run, Effect.apply]
  · intro ok data hread
    simp [mount, fetchAccuracy, fetchAccuracyTry, hread, run, Effect.apply]

/-- Witness of C11, amended: the body `{accuracy: 78}` is stored over an earlier value, the
body `{accuracy: 0}` and a body without accuracy are not. -/
theorem mount_stores_truthy_accuracy_witness :
    (mount Revision.src (FetchOutcome.resolved true (some accuracyBody))
        sampleState).modelAccuracy = JSValue.number 78 ∧
      (mount Revision.src (FetchOutcome.resolved true (some accuracyBody))
        State.initial).modelAccuracy = JSValue.number (JsonNumber.fin 78) ∧
      (mount Revision.src (FetchOutcome.resolved true (some zeroAccuracyBody))
        sampleState).modelAccuracy = sampleState.modelAccuracy ∧
      (mount Revision.src (FetchOutcome.resolved true (some JSValue.null))
        sampleState).modelAccuracy = sampleState.modelAccuracy :=
  ⟨(mount_stores_truthy_accuracy Revision.src sampleState).1 true accuracyBody
      (JSValue.number 78) rfl (by decide),
    (mount_stores_truthy_accuracy Revision.src State.initial).2.1 true accuracyBody 78 rfl
      (by norm_num),
    (mount_stores_truthy_accuracy Revision.src sampleState).2.2.1 true zeroAccuracyBody
      (JSValue.number 0) rfl (by decide),
    (mount_stores_truthy_accuracy Revision.src sampleState).2.2.2.1 true JSValue.null rfl⟩


theorem handleTrain_frame (online : Bool) (outcome : FetchOutcome) (s : State) :
    (train online outcome s).formData = s.formData ∧
      (train online outcome s).result = s.result ∧
      (train online outcome s).error = s.error ∧
      (train online outcome s).loading = s.loading := by
  unfold train handleTrain
  rcases outcome with _ | ⟨_ | _, _ | data⟩ <;> cases online <;>
    try exact ⟨rfl, rfl, rfl, rfl⟩
  all_goals
    simp only [handleTrainTry]
    cases data.getProperty "accuracy" <;> exact ⟨rfl, rfl, rfl, rfl⟩

/-- C12: the train operation without argument, on a response with a success status whose
body has accuracy `a`, sets the model accuracy to `a`; on a non-success status or a thrown
error it leaves the model accuracy as it was; and in every case it leaves the form data, the
result, the error and `loading` as they were. -/
theorem train_sets_accuracy (online : Bool) (s : State) :
    (∀ data accuracy, data.getProperty "accuracy" = some accuracy →
        (train online (FetchOutcome.resolved true (some data)) s).modelAccuracy = accuracy) ∧
      (∀ json, (train online (FetchOutcome.resolved false json) s).modelAccuracy =
        s.modelAccuracy) ∧
      (train online FetchOutcome.rejected s).modelAccuracy = s.modelAccuracy ∧
      (train online (FetchOutcome.resolved true none) s).modelAccuracy = s.modelAccuracy ∧
      (∀ outcome,
        (train online outcome s).formData = s.formData ∧
        (train online outcome s).result = s.result ∧
        (train online outcome s).error = s.error ∧
        (train online outcome s).loading = s.loading) := by
  refine ⟨?_, ?_, ?_, ?_, fun outcome => handleTrain_frame online outcome s⟩
  · intro data accuracy hread
    simp [train, handleTrain, handleTrainTry, hread, run, Effect.apply]
  · intro json
    cases online <;> rfl
  · cases online <;> rfl
  · cases online <;> rfl

/-- Witness of C12: the training body `{accuracy: 78}` arrives in a state without a model
accuracy. -/
theorem train_sets_accuracy_witness :
    State.initial.modelAccuracy = JSValue.null ∧
      (train true (FetchOutcome.resolved true (some accuracyBody))
        State.initial).modelAccuracy = JSValue.number 78 :=
  ⟨rfl, (train_sets_accuracy true State.initial).1 accuracyBody (JSValue.number 78) rfl⟩

/-! ## The HTTP client wrapper -/

/-- C13: `predictDiabetes` and `predictBatch` each return exactly the data of the response
when the POST succeeds and fail with exactly the error the POST failed with; `predictDiabetes`
posts the record as given to `/predict`, and `predictBatch` posts the records under the
single key `patients` to `/predict/batch`. -/
theorem wrapper_passthrough (adapter : AxiosConfig → Except AxiosError AxiosResponse)
    (record : JSValue) :
    ((predictDiabetes adapter record).2 =
        match adapter
          { baseURL := "http://localhost:5000"
            headers := [("Content-Type", "application/json")]
            timeout := 10000
            method := "post"
            url := "/predict"
            data := record } with
        | .ok response => .ok response.data
        | .error error => .error error) ∧
      ((predictBatch adapter record).2 =
        match adapter
          { baseURL := "http://localhost:5000"
            headers := [("Content-Type", "application/json")]
            timeout := 10000
            method := "post"
            url := "/predict/batch"
            data := JSValue.object [("patients", record)] } with
        | .ok response => .ok response.data
        | .error error => .error error) := by
  constructor
  · simp only [predictDiabetes, apiPost, requestInterceptor, postConfig, API_BASE_URL]
    cases adapter _ <;> rfl
  · simp only [predictBatch, apiPost, requestInterceptor, postConfig, API_BASE_URL]
    cases adapter _ <;> rfl

/-! ## Submit: failure statuses and unparsable fields -/

/-- C14: for a form with all eight fields non-empty, a predict response with a non-success
status is treated as a failure: its body is never written to the result, the result is null
after submit, and the error is the message that a rejected request produces under the same
connectivity. -/
theorem submit_failure_status (parseFloat : String → JSNumber) (rev : Revision)
    (online : Bool) (json : Option JSValue) (s : State)
    (h : ∀ name, s.formData.get name ≠ "") :
    resultWrites (handleSubmit parseFloat rev s.formData online
        (FetchOutcome.resolved false json)) = [JSValue.null] ∧
      (submit parseFloat rev online (FetchOutcome.resolved false json) s).result =
        JSValue.null ∧
      (submit parseFloat rev online (FetchOutcome.resolved false json) s).error =
        (submit parseFloat rev online FetchOutcome.rejected s).error ∧
      ∃ message,
        (submit parseFloat rev online (FetchOutcome.resolved false json) s).error =
          some message := by
  simp only [submit, handleSubmit_populated parseFloat rev s.formData online _ h]
  cases rev <;> cases online <;> exact ⟨rfl, rfl, rfl, _, rfl⟩

/-- Witness of C14: a response with a failure status that carries the body
`{prediction: 1, probability: 87, risk_level: "High"}`. -/
theorem submit_failure_status_witness :
    (∀ name, sampleState.formData.get name ≠ "") ∧
      resultWrites (handleSubmit parseDigits Revision.src sampleState.formData true
        (FetchOutcome.resolved false (some highRiskBody))) = [JSValue.null] ∧
      (submit parseDigits Revision.src true (FetchOutcome.resolved false (some highRiskBody))
        sampleState).result = JSValue.null ∧
      (submit parseDigits Revision.src true (FetchOutcome.resolved false (some highRiskBody))
        sampleState).error =
        (submit parseDigits Revision.src true FetchOutcome.rejected sampleState).error ∧
      ∃ message,
        (submit parseDigits Revision.src true (FetchOutcome.resolved false (some highRiskBody))
          sampleState).error = some message :=
  ⟨sampleForm_populated,
    submit_failure_status parseDigits Revision.src true (some highRiskBody) sampleState
      sampleForm_populated⟩


theorem predictPayload_lookup (parseFloat : String → JSNumber) (rev : Revision)
    (formData : FormData) (name : FieldName) :
    (predictPayload parseFloat rev formData).lookup (payloadKey rev name) =
      some (parseFloat (formData.get name)) := by
  cases rev <;> cases name <;> simp [predictPayload, payloadKey, FieldName.key, List.lookup, FormData.get]

/-- C15: when all eight fields are non-empty but one of them does not parse as a number, so
that `parseFloat` yields NaN for it, submit sets no validation error and still issues the
single predict POST, and the payload value of that field is NaN. -/
theorem submit_unparsable_field (parseFloat : String → JSNumber) (rev : Revision)
    (online : Bool) (outcome : FetchOutcome) (formData : FormData) (name : FieldName)
    (h : ∀ field, formData.get field ≠ "")
    (hnan : parseFloat (formData.get name) = JSNumber.nan) :
    Effect.setError (some validationMessage) ∉
        handleSubmit parseFloat rev formData online outcome ∧
      ∃ req body,
        requests (handleSubmit parseFloat rev formData online outcome) = [req] ∧
        req.method = "POST" ∧
        req.url = predictUrl rev ∧
        req.body = some body ∧
        body.lookup (payloadKey rev name) = some JSNumber.nan := by
  constructor
  · rw [handleSubmit_populated parseFloat rev formData online outcome h]
    rcases outcome with _ | ⟨_ | _, _ | _⟩ <;> cases rev <;> cases online <;>
      simp [handleSubmitResume, handleSubmitTry, handleSubmitCatch, handleSubmitFinally,
        validationMessage, serverMessage, offlineMessage]
  · refine ⟨predictRequest parseFloat rev formData, predictPayload parseFloat rev formData,
      ?_, rfl, rfl, rfl, ?_⟩
    · rw [handleSubmit_populated parseFloat rev formData online outcome h]
      rcases outcome with _ | ⟨_ | _, _ | _⟩ <;> cases rev <;> cases online <;> rfl
    · rw [predictPayload_lookup, hnan]

/-- Witness of C15: the sample form with "abc" entered as the glucose value. -/
theorem submit_unparsable_field_witness :
    (∀ field, FormData.get { sampleForm with glucose := "abc" } field ≠ "") ∧
      parseSample (FormData.get { sampleForm with glucose := "abc" } FieldName.glucose) =
        JSNumber.nan ∧
      payloadKey Revision.src FieldName.glucose = "Glucose" ∧
      Effect.setError (some validationMessage) ∉
        handleSubmit parseSample Revision.src { sampleForm with glucose := "abc" } true
          (FetchOutcome.resolved true (some highRiskBody)) ∧
      ∃ req body,
        requests (handleSubmit parseSample Revision.src { sampleForm with glucose := "abc" }
          true (FetchOutcome.resolved true (some highRiskBody))) = [req] ∧
        req.method = "POST" ∧
        req.url = predictUrl Revision.src ∧
        req.body = some body ∧
        body.lookup (payloadKey Revision.src FieldName.glucose) = some JSNumber.nan :=
  ⟨by intro field; cases field <;> decide, by decide, rfl,
    submit_unparsable_field parseSample Revision.src true
      (FetchOutcome.resolved true (some highRiskBody)) { sampleForm with glucose := "abc" }
      FieldName.glucose (by intro field; cases field <;> decide) (by decide)⟩


/-! ## Sessions -/

theorem Session.run_cons (parseFloat : String → JSNumber) (rev : Revision) (c : Session)
    (event : Event) (events : List Event) :
    Session.run parseFloat rev c (event :: events) =
      Session.run parseFloat rev (c.step parseFloat rev event) events := rfl

theorem Session.submit_events (parseFloat : String → JSNumber) (rev : Revision) (online : Bool)
    (outcome : FetchOutcome) (s : State) :
    (Session.run parseFloat rev { state := s, inFlight := 0 }
        [Event.submitStart, Event.submitSettled online outcome]).state =
      submit parseFloat rev online outcome s := by
  by_cases h : ∃ name, s.formData.get name = ""
  · have hpos := (emptyFields_length_pos_iff s.formData).mpr h
    simp [Session.run, Session.step, submit, handleSubmit, handleSubmitStart, hpos]
  · have hall : ∀ name, s.formData.get name ≠ "" := fun name hname => h ⟨name, hname⟩
    have hnil := (emptyFields_eq_nil_iff s.formData).mpr hall
    simp [Session.run, Session.step, submit, handleSubmit, handleSubmitStart, hnil]
    rfl

theorem submitStart_hides_reset (parseFloat : String → JSNumber) (rev : Revision) (s : State) :
    resetOffered (run s (handleSubmitStart parseFloat rev s.formData).1) = false := by
  by_cases hempty : (emptyFields s.formData).length > 0
  · simp [handleSubmitStart, hempty, run, Effect.apply, resetOffered, JSValue.toBoolean]
  · simp [handleSubmitStart, hempty, run, Effect.apply, resetOffered, JSValue.toBoolean]

theorem Session.pageRun_cons (parseFloat : String → JSNumber) (rev : Revision) (c : Session)
    (event : Event) (events : List Event) :
    Session.pageRun parseFloat rev c (event :: events) =
      Session.pageRun parseFloat rev (c.pageStep parseFloat rev event) events := rfl

theorem Session.pageStep_inFlightGuarded (parseFloat : String → JSNumber) (rev : Revision)
    (c : Session) (event : Event) (hc : c.inFlightGuarded) :
    (c.pageStep parseFloat rev event).inFlightGuarded := by
  obtain ⟨hle, hflight⟩ := hc
  unfold Session.pageStep
  by_cases hoffered : c.offered event = true
  swap
  · simpa [hoffered] using (⟨hle, hflight⟩ : c.inFlightGuarded)
  rw [if_pos hoffered]
  cases event with
  | mounted outcome =>
    have hframe := fetchAccuracy_frame rev outcome c.state
    refine ⟨hle, fun h1 => ?_⟩
    exact ⟨hframe.2.1.trans (hflight h1).1, hframe.2.2.2.trans (hflight h1).2⟩
  | inputChange name value => exact ⟨hle, fun h1 => hflight h1⟩
  | submitStart =>
    have hshown : c.state.showAssessment = true ∧ c.state.loading = false := by
      simpa [Session.offered, predictEnabled] using hoffered
    have hidle := hshown.2
    have hzero : c.inFlight = 0 := by
      rcases Nat.le_one_iff_eq_zero_or_eq_one.mp hle with h0 | h1
      · exact h0
      · rw [(hflight h1).2] at hidle
        exact absurd hidle (by simp)
    by_cases hempty : (emptyFields c.state.formData).length > 0
    · simp [Session.step, handleSubmitStart, hempty, hzero, Session.inFlightGuarded]
    · simp [Session.step, handleSubmitStart, hempty, hzero, Session.inFlightGuarded,
        DiaPredictor.run, Effect.apply]
  | submitSettled online outcome =>
    have hpos : c.inFlight > 0 := by simpa [Session.offered] using hoffered
    have hone : c.inFlight = 1 := by omega
    simp [Session.step, hpos, hone, Session.inFlightGuarded]
  | reset =>
    refine ⟨hle, fun h1 => ?_⟩
    have htruthy : c.state.result.toBoolean = true := by
      have := hoffered
      simp only [Session.offered, resetOffered, Bool.and_eq_true] at this
      exact this.2
    rw [(hflight h1).1] at htruthy
    exact absurd htruthy (by simp [JSValue.toBoolean])
  | train online outcome =>
    cases rev with
    | root => exact ⟨hle, hflight⟩
    | src =>
      have hframe := handleTrain_frame online outcome c.state
      refine ⟨hle, fun h1 => ?_⟩
      exact ⟨hframe.2.1.trans (hflight h1).1, hframe.2.2.2.trans (hflight h1).2⟩
  | upload => exact ⟨hle, hflight⟩
  | proceed => exact ⟨hle, fun h1 => hflight h1⟩
  | back => exact ⟨hle, fun h1 => hflight h1⟩
  | toggleTraining =>
    cases rev with
    | root => exact ⟨hle, hflight⟩
    | src => exact ⟨hle, fun h1 => hflight h1⟩

theorem Session.pageRun_inFlightGuarded (parseFloat : String → JSNumber) (rev : Revision)
    (events : List Event) :
    ∀ c : Session, c.inFlightGuarded → (Session.pageRun parseFloat rev c events).inFlightGuarded := by
  induction events with
  | nil => intro c hc; exact hc
  | cons event events ih =>
    intro c hc
    rw [Session.pageRun_cons]
    exact ih _ (Session.pageStep_inFlightGuarded parseFloat rev c event hc)

theorem Session.fresh_inFlightGuarded : Session.fresh.inFlightGuarded :=
  ⟨Nat.zero_le 1, fun h => absurd h (by decide)⟩

theorem Session.reset_hidden_in_flight (c : Session) (hc : c.inFlightGuarded)
    (hpos : c.inFlight > 0) :
    c.state.result = JSValue.null ∧ c.offered Event.reset = false := by
  have hone : c.inFlight = 1 := by have := hc.1; omega
  refine ⟨(hc.2 hone).1, ?_⟩
  simp [Session.offered, resetOffered, (hc.2 hone).1, JSValue.toBoolean]

/-- C16, the claim as stated fails: no sequence of events of the page, in either revision,
reaches a session in which a predict request is in flight and reset can run, because the
reset button is rendered only while the result is truthy and the result is null while a
request is in flight.  On the sample state, where an earlier result is shown, the click on
reset after the click on predict does not happen, and the response finds the form as it was
entered. -/
theorem reset_in_flight_unreachable :
    (¬ ∃ (parseFloat : String → JSNumber) (rev : Revision) (events : List Event),
        (Session.pageRun parseFloat rev Session.fresh events).inFlight > 0 ∧
        (Session.pageRun parseFloat rev Session.fresh events).offered Event.reset = true) ∧
      Session.offered { state := sampleState, inFlight := 0 } Event.reset = true ∧
      (Session.pageRun parseDigits Revision.src { state := sampleState, inFlight := 0 }
        [Event.submitStart]).offered Event.reset = false ∧
      (Session.pageRun parseDigits Revision.src { state := sampleState, inFlight := 0 }
        [Event.submitStart, Event.reset,
          Event.submitSettled true (FetchOutcome.resolved true (some highRiskBody))]).state.result =
        highRiskBody ∧
      (Session.pageRun parseDigits Revision.src { state := sampleState, inFlight := 0 }
        [Event.submitStart, Event.reset,
          Event.submitSettled true
            (FetchOutcome.resolved true (some highRiskBody))]).state.formData = sampleForm ∧
      sampleForm.get FieldName.age = "33" := by
  refine ⟨?_, rfl, rfl, rfl, rfl, rfl⟩
  rintro ⟨parseFloat, rev, events, hpos, hreset⟩
  have hguard := Session.pageRun_inFlightGuarded parseFloat rev events Session.fresh
    Session.fresh_inFlightGuarded
  rw [(Session.reset_hidden_in_flight _ hguard hpos).2] at hreset
  exact absurd hreset (by simp)

/-- C16, amended: neither `handleSubmit` nor `resetForm` cancels or invalidates a submit in
flight: if `resetForm` runs between the start of `handleSubmit` on a form with all eight
fields non-empty and the arrival of its response with a success status and body `b`, the
result is `b` although all eight fields are empty strings.  On the page this order of events
does not occur: in every session reached from the initial one by events of the page, while a
request is in flight the result is null and reset is not offered. -/
theorem reset_in_flight_stale_result (parseFloat : String → JSNumber) (rev : Revision)
    (online : Bool) (s : State) (b : JSValue) (h : ∀ name, s.formData.get name ≠ "") :
    ((Session.run parseFloat rev { state := s, inFlight := 0 } [Event.submitStart]).inFlight = 1 ∧
      (Session.run parseFloat rev { state := s, inFlight := 0 }
        [Event.submitStart, Event.reset]).inFlight = 1 ∧
      (Session.run parseFloat rev { state := s, inFlight := 0 }
        [Event.submitStart, Event.reset,
          Event.submitSettled online (FetchOutcome.resolved true (some b))]).state.result = b ∧
      ∀ name,
        (Session.run parseFloat rev { state := s, inFlight := 0 }
          [Event.submitStart, Event.reset,
            Event.submitSettled online (FetchOutcome.resolved true (some b))]).state.formData.get
          name = "") ∧
      ∀ events : List Event,
        (Session.pageRun parseFloat rev Session.fresh events).inFlight > 0 →
        (Session.pageRun parseFloat rev Session.fresh events).state.result = JSValue.null ∧
          (Session.pageRun parseFloat rev Session.fresh events).offered Event.reset = false := by
  have hnil := (emptyFields_eq_nil_iff s.formData).mpr h
  refine ⟨⟨?_, ?_, ?_, ?_⟩, ?_⟩
  · simp [Session.run, Session.step, handleSubmitStart, hnil]
  · simp [Session.run, Session.step, handleSubmitStart, hnil]
  · simp [Session.run, Session.step, handleSubmitStart, hnil]
    rfl
  · intro name
    simp [Session.run, Session.step, handleSubmitStart, hnil]
    cases name <;> rfl
  · intro events hpos
    exact Session.reset_hidden_in_flight _
      (Session.pageRun_inFlightGuarded parseFloat rev events Session.fresh
        Session.fresh_inFlightGuarded) hpos

/-- Witness of C16, amended: with the handlers run in this order on the sample state the
body `{prediction: 1, probability: 87, risk_level: "High"}` becomes the result of an empty
form; on the page, after the sample form is filled in and submitted, a request is in flight,
the result is null and reset is not offered. -/
theorem reset_in_flight_stale_result_witness :
    (∀ name, sampleState.formData.get name ≠ "") ∧ highRiskBody ≠ JSValue.null ∧
      ((Session.run parseDigits Revision.src { state := sampleState, inFlight := 0 }
        [Event.submitStart]).inFlight = 1 ∧
      (Session.run parseDigits Revision.src { state := sampleState, inFlight := 0 }
        [Event.submitStart, Event.reset]).inFlight = 1 ∧
      (Session.run parseDigits Revision.src { state := sampleState, inFlight := 0 }
        [Event.submitStart, Event.reset,
          Event.submitSettled true (FetchOutcome.resolved true (some highRiskBody))]).state.result =
        highRiskBody ∧
      ∀ name,
        (Session.run parseDigits Revision.src { state := sampleState, inFlight := 0 }
          [Event.submitStart, Event.reset,
            Event.submitSettled true
              (FetchOutcome.resolved true (some highRiskBody))]).state.formData.get name = "") ∧
      (Session.pageRun parseDigits Revision.src Session.fresh fillAndSubmit).inFlight > 0 ∧
      (Session.pageRun parseDigits Revision.src Session.fresh fillAndSubmit).state.result =
        JSValue.null ∧
      (Session.pageRun parseDigits Revision.src Session.fresh fillAndSubmit).offered
        Event.reset = false :=
  ⟨sampleForm_populated, fun hnull => JSValue.noConfusion hnull,
    (reset_in_flight_stale_result parseDigits Revision.src true sampleState highRiskBody
      sampleForm_populated).1,
    by decide,
    (reset_in_flight_stale_result parseDigits Revision.src true sampleState highRiskBody
      sampleForm_populated).2 fillAndSubmit (by decide)⟩

theorem Session.step_result (parseFloat : String → JSNumber) (rev : Revision) (c : Session)
    (event : Event) :
    (c.step parseFloat rev event).state.result = JSValue.null ∨
      c.delivered event = some (c.step parseFloat rev event).state.result ∨
      (c.delivered event = none ∧
        (c.step parseFloat rev event).state.result = c.state.result) := by
  cases event with
  | mounted outcome =>
    exact Or.inr (Or.inr ⟨rfl, (fetchAccuracy_frame rev outcome c.state).2.1⟩)
  | inputChange name value => exact Or.inr (Or.inr ⟨rfl, rfl⟩)
  | submitStart =>
    left
    by_cases hempty : (emptyFields c.state.formData).length > 0
    · simp [Session.step, handleSubmitStart, hempty, DiaPredictor.run, Effect.apply]
    · simp [Session.step, handleSubmitStart, hempty, DiaPredictor.run, Effect.apply]
  | submitSettled online outcome =>
    by_cases hflight : c.inFlight > 0
    · rcases outcome with _ | ⟨_ | _, _ | body⟩
      · right; right
        cases rev <;> cases online <;>
          simp [Session.step, Session.delivered, hflight, handleSubmitResume, handleSubmitTry,
            handleSubmitCatch, handleSubmitFinally, DiaPredictor.run, Effect.apply]
      · right; right
        cases rev <;> cases online <;>
          simp [Session.step, Session.delivered, hflight, handleSubmitResume, handleSubmitTry,
            handleSubmitCatch, handleSubmitFinally, DiaPredictor.run, Effect.apply]
      · right; right
        cases rev <;> cases online <;>
          simp [Session.step, Session.delivered, hflight, handleSubmitResume, handleSubmitTry,
            handleSubmitCatch, handleSubmitFinally, DiaPredictor.run, Effect.apply]
      · right; right
        cases rev <;> cases online <;>
          simp [Session.step, Session.delivered, hflight, handleSubmitResume, handleSubmitTry,
            handleSubmitCatch, handleSubmitFinally, DiaPredictor.run, Effect.apply]
      · right; left
        simp [Session.step, Session.delivered, hflight, handleSubmitResume, handleSubmitTry,
          handleSubmitFinally, DiaPredictor.run, Effect.apply]
    · right; right
      rcases outcome with _ | ⟨_ | _, _ | body⟩ <;>
        simp [Session.step, Session.delivered, hflight]
  | reset => exact Or.inl rfl
  | train online outcome =>
    cases rev with
    | root => exact Or.inr (Or.inr ⟨rfl, rfl⟩)
    | src => exact Or.inr (Or.inr ⟨rfl, (handleTrain_frame online outcome c.state).2.1⟩)
  | upload => exact Or.inr (Or.inr ⟨rfl, rfl⟩)
  | proceed => exact Or.inr (Or.inr ⟨rfl, rfl⟩)
  | back => exact Or.inr (Or.inr ⟨rfl, rfl⟩)
  | toggleTraining =>
    cases rev with
    | root => exact Or.inr (Or.inr ⟨rfl, rfl⟩)
    | src => exact Or.inr (Or.inr ⟨rfl, rfl⟩)

theorem Session.run_result (parseFloat : String → JSNumber) (rev : Revision)
    (events : List Event) :
    ∀ c : Session,
      (Session.run parseFloat rev c events).state.result = JSValue.null ∨
        Session.lastDelivered parseFloat rev c events =
          some (Session.run parseFloat rev c events).state.result ∨
        (Session.lastDelivered parseFloat rev c events = none ∧
          (Session.run parseFloat rev c events).state.result = c.state.result) := by
  induction events with
  | nil => intro c; exact Or.inr (Or.inr ⟨rfl, rfl⟩)
  | cons event events ih =>
    intro c
    rw [Session.run_cons]
    rcases ih (c.step parseFloat rev event) with hnull | hlast | ⟨hnone, hsame⟩
    · exact Or.inl hnull
    · right; left
      simp only [Session.lastDelivered, hlast]
    · rcases Session.step_result parseFloat rev c event with hnull | hdel | ⟨hdel, hkeep⟩
      · exact Or.inl (hsame.trans hnull)
      · right; left
        simp only [Session.lastDelivered, hnone, hdel, hsame]
      · right; right
        refine ⟨?_, hsame.trans hkeep⟩
        simp only [Session.lastDelivered, hnone, hdel]

/-- C17: the result is null in the initial state; in every state reached from it by a
sequence of events (mount, update field, the start and the settling of a submit, reset,
train, file upload, the screen toggles) the result is null or equal to the body of the most
recent successful predict response; and a sequence without a successful predict response
leaves it null. -/
theorem result_null_or_last_response (parseFloat : String → JSNumber) (rev : Revision)
    (events : List Event) :
    State.initial.result = JSValue.null ∧
      ((Session.run parseFloat rev Session.fresh events).state.result = JSValue.null ∨
        Session.lastDelivered parseFloat rev Session.fresh events =
          some (Session.run parseFloat rev Session.fresh events).state.result) ∧
      (Session.lastDelivered parseFloat rev Session.fresh events = none →
        (Session.run parseFloat rev Session.fresh events).state.result = JSValue.null) := by
  refine ⟨rfl, ?_, ?_⟩
  · rcases Session.run_result parseFloat rev events Session.fresh with h | h | ⟨-, h⟩
    · exact Or.inl h
    · exact Or.inr h
    · exact Or.inl h
  · intro hnone
    rcases Session.run_result parseFloat rev events Session.fresh with h | h | ⟨-, h⟩
    · exact h
    · rw [hnone] at h
      exact absurd h (by simp)
    · exact h

/-- Witness of C17: a session with a health check, an edit, a submit that validation
blocks, a response that therefore has no request to settle, a failed training and a
toggle delivers no predict response, and its result is null. -/
theorem result_null_or_last_response_witness :
    Session.lastDelivered parseDigits Revision.src Session.fresh
        [Event.mounted (FetchOutcome.resolved true (some accuracyBody)),
          Event.inputChange FieldName.age "33", Event.submitStart,
          Event.submitSettled true (FetchOutcome.resolved true (some highRiskBody)),
          Event.train true FetchOutcome.rejected, Event.toggleTraining] = none ∧
      (Session.run parseDigits Revision.src Session.fresh
        [Event.mounted (FetchOutcome.resolved true (some accuracyBody)),
          Event.inputChange FieldName.age "33", Event.submitStart,
          Event.submitSettled true (FetchOutcome.resolved true (some highRiskBody)),
          Event.train true FetchOutcome.rejected, Event.toggleTraining]).state.result =
        JSValue.null :=
  ⟨rfl,
    (result_null_or_last_response parseDigits Revision.src
      [Event.mounted (FetchOutcome.resolved true (some accuracyBody)),
        Event.inputChange FieldName.age "33", Event.submitStart,
        Event.submitSettled true (FetchOutcome.resolved true (some highRiskBody)),
        Event.train true FetchOutcome.rejected, Event.toggleTraining]).2.2 rfl⟩


/-! ## Submit: what it does not read and does not write -/

/-- C18: the outcome of submit does not depend on the model accuracy: from two states that
differ only in the model accuracy (null included) and with the same response, submit issues
the same requests and produces the same result, error and `loading`. -/
theorem submit_ignores_modelAccuracy (parseFloat : String → JSNumber) (rev : Revision)
    (online : Bool) (outcome : FetchOutcome) (s : State) (accuracy : JSValue) :
    requests (handleSubmit parseFloat rev ({ s with modelAccuracy := accuracy }).formData
        online outcome) =
        requests (handleSubmit parseFloat rev s.formData online outcome) ∧
      (submit parseFloat rev online outcome { s with modelAccuracy := accuracy }).result =
        (submit parseFloat rev online outcome s).result ∧
      (submit parseFloat rev online outcome { s with modelAccuracy := accuracy }).error =
        (submit parseFloat rev online outcome s).error ∧
      (submit parseFloat rev online outcome { s with modelAccuracy := accuracy }).loading =
        (submit parseFloat rev online outcome s).loading := by
  refine ⟨rfl, ?_⟩
  by_cases h : ∃ name, s.formData.get name = ""
  · simp only [submit, handleSubmit_blocked parseFloat rev s.formData online outcome h]
    exact ⟨rfl, rfl, rfl⟩
  · have hall : ∀ name, s.formData.get name ≠ "" := fun name hname => h ⟨name, hname⟩
    simp only [submit, handleSubmit_populated parseFloat rev s.formData online outcome hall]
    rcases outcome with _ | ⟨_ | _, _ | _⟩ <;> cases rev <;> cases online <;>
      exact ⟨rfl, rfl, rfl⟩

/-- C19: on every path (validation failure, non-success status, thrown error, success), in
both revisions, submit leaves all eight form fields as they were: the stored values stay the
entered strings. -/
theorem submit_keeps_formData (parseFloat : String → JSNumber) (rev : Revision)
    (online : Bool) (outcome : FetchOutcome) (s : State) :
    (submit parseFloat rev online outcome s).formData = s.formData ∧
      ∀ name, (submit parseFloat rev online outcome s).formData.get name =
        s.formData.get name := by
  have hsame : (submit parseFloat rev online outcome s).formData = s.formData := by
    by_cases h : ∃ name, s.formData.get name = ""
    · rw [submit, handleSubmit_blocked parseFloat rev s.formData online outcome h]
      rfl
    · have hall : ∀ name, s.formData.get name ≠ "" := fun name hname => h ⟨name, hname⟩
      rw [submit, handleSubmit_populated parseFloat rev s.formData online outcome hall]
      rcases outcome with _ | ⟨_ | _, _ | _⟩ <;> cases rev <;> cases online <;> rfl
  exact ⟨hsame, fun name => by rw [hsame]⟩

/-! ## The two revisions -/

/-- C20: the two revisions agree on update field, reset and submit when the client reports
being online: the handlers of update field and reset perform the same effects, submit from
the same state with the same response reaches the same state (form data, result, error and
`loading` included), and the two predict payloads carry the same eight values in the same
order under keys that differ: camel-case in the root revision, capitalized in `src`. -/
theorem revisions_agree_online (parseFloat : String → JSNumber) (outcome : FetchOutcome)
    (s : State) (name : FieldName) (value : String) :
    run s (Root.handleInputChange name value) = updateField name value s ∧
      run s Root.resetForm = reset s ∧
      submit parseFloat Revision.root true outcome s =
        submit parseFloat Revision.src true outcome s ∧
      (predictPayload parseFloat Revision.root s.formData).map Prod.snd =
        (predictPayload parseFloat Revision.src s.formData).map Prod.snd ∧
      (predictPayload parseFloat Revision.root s.formData).map Prod.fst =
        ["pregnancies", "glucose", "bloodPressure", "skinThickness", "insulin", "bmi",
          "diabetesPedigreeFunction", "age"] ∧
      (predictPayload parseFloat Revision.src s.formData).map Prod.fst =
        ["Pregnancies", "Glucose", "BloodPressure", "SkinThickness", "Insulin", "BMI",
          "DiabetesPedigreeFunction", "Age"] := by
  refine ⟨rfl, rfl, ?_, rfl, rfl, rfl⟩
  by_cases h : ∃ field, s.formData.get field = ""
  · simp only [submit, handleSubmit_blocked parseFloat _ s.formData true outcome h]
  · have hall : ∀ field, s.formData.get field ≠ "" := fun field hfield => h ⟨field, hfield⟩
    simp only [submit, handleSubmit_populated parseFloat _ s.formData true outcome hall]
    rcases outcome with _ | ⟨_ | _, _ | _⟩ <;> rfl

theorem revisions_differ_offline (parseFloat : String → JSNumber) :
    (submit parseFloat Revision.root false FetchOutcome.rejected sampleState).error =
        some serverMessage ∧
      (submit parseFloat Revision.src false FetchOutcome.rejected sampleState).error =
        some offlineMessage := by
  simp only [submit,
    handleSubmit_populated parseFloat _ sampleState.formData false _ sampleForm_populated]
  exact ⟨rfl, rfl⟩


/-! ## Update field: what it leaves alone -/

theorem FormData.get_set_of_ne (prev : FormData) (name other : FieldName) (value : String)
    (h : other ≠ name) : (prev.set name value).get other = prev.get other := by
  cases name <;> cases other <;> first | rfl | exact absurd rfl h

/-- C21: for every state, every one of the eight field names and every value, update field
leaves the other seven fields, the result, `loading`, the model accuracy, the current screen
and the training-panel flag as they were; the handler of the root revision yields the same
state. -/
theorem updateField_frame (s : State) (name : FieldName) (value : String) :
    (∀ other, other ≠ name →
        (updateField name value s).formData.get other = s.formData.get other) ∧
      (updateField name value s).result = s.result ∧
      (updateField name value s).loading = s.loading ∧
      (updateField name value s).modelAccuracy = s.modelAccuracy ∧
      (updateField name value s).showAssessment = s.showAssessment ∧
      (updateField name value s).training = s.training ∧
      run s (Root.handleInputChange name value) = updateField name value s :=
  ⟨fun other h => FormData.get_set_of_ne s.formData name other value h,
    rfl, rfl, rfl, rfl, rfl, rfl⟩

/-- Witness of C21: the glucose field of the sample state is emptied; the age field keeps
its value. -/
theorem updateField_frame_witness :
    FieldName.age ≠ FieldName.glucose ∧
      (updateField FieldName.glucose "" sampleState).formData.get FieldName.age = "33" ∧
      (updateField FieldName.glucose "" sampleState).formData.get FieldName.age =
        sampleState.formData.get FieldName.age :=
  ⟨by decide, rfl,
    (updateField_frame sampleState FieldName.glucose "").1 FieldName.age (by decide)⟩

end DiaPredictor
